import Mathlib

/-!
# Verification of the remote-JWKS token verifier (`src/config/firebase.rs`)

Shallow embedding of the Firebase token verifier of this repository:
the claims structure, the base64url decoder used by the emulator path,
the `Cache-Control: max-age` parser and expiry computation of the key
fetcher, the emulator (signature-free) decode path, and the real
verification path of `FirebaseAuth::verify_token`.

Strings are modelled via their character lists (`List Char`); bytes as
`Nat` values below 256; `u64` as `Nat` with explicit underflow/overflow
accounting where the Rust arithmetic can wrap.  External library calls
(`serde_json::from_slice`, the cryptographic parts of `jsonwebtoken`)
are modelled as explicit parameters or as definitions following the
libraries' documented behaviour, and are marked as such.
-/

namespace Firebase

/-- The `FirebaseClaims` struct (firebase.rs lines 16-28): the decoded
token payload. -/
structure FirebaseClaims where
  sub : String
  aud : String
  iss : String
  iat : Nat
  exp : Nat
  email : Option String := none
  email_verified : Option Bool := none
  name : Option String := none
  picture : Option String := none
  user_id : Option String := none
  deriving Repr, DecidableEq

/-- The repository's `AppError` enum (utils/error.rs), restricted to the
variants the verifier produces; each carries its formatted message. -/
inductive AppError where
  | Authentication (msg : String)
  | Internal (msg : String)
  deriving Repr, DecidableEq

/-! ## String splitting

`str::split(sep)` of Rust: splitting the empty string yields one empty
segment; adjacent separators yield empty segments. -/

/-- Rust `str::split(sep)` on a character list. -/
def splitOnChar (sep : Char) : List Char → List (List Char)
  | [] => [[]]
  | c :: rest =>
    if c = sep then
      [] :: splitOnChar sep rest
    else
      match splitOnChar sep rest with
      | s :: ss => (c :: s) :: ss
      | [] => [[c]]

theorem splitOnChar_ne_nil (sep : Char) (l : List Char) :
    splitOnChar sep l ≠ [] := by
  induction l with
  | nil => simp [splitOnChar]
  | cons c rest ih =>
    simp only [splitOnChar]
    split
    · simp
    · cases h : splitOnChar sep rest with
      | nil => exact absurd h ih
      | cons s ss => simp

/-- Splitting a segment without the separator followed by the separator
prepends that segment. -/
theorem splitOnChar_append (sep : Char) (seg rest : List Char)
    (hseg : sep ∉ seg) :
    splitOnChar sep (seg ++ sep :: rest) = seg :: splitOnChar sep rest := by
  induction seg with
  | nil => simp [splitOnChar]
  | cons c cs ih =>
    simp only [List.mem_cons, not_or] at hseg
    have hne : ¬c = sep := fun h => hseg.1 h.symm
    simp only [List.cons_append, splitOnChar, hne, if_false, List.append_eq,
      ih hseg.2]

/-- A separator-free list splits into itself alone. -/
theorem splitOnChar_no_sep (sep : Char) (l : List Char) (h : sep ∉ l) :
    splitOnChar sep l = [l] := by
  induction l with
  | nil => rfl
  | cons c cs ih =>
    simp only [List.mem_cons, not_or] at h
    have hne : ¬c = sep := fun hh => h.1 hh.symm
    simp only [splitOnChar, hne, if_false, ih h.2]

/-! ## `parse_max_age` (firebase.rs lines 214-224)

Models `str::trim`, `str::starts_with` / `strip_prefix`, and
`str::parse::<u64>` on ASCII input (Unicode whitespace beyond the ASCII
range is not modelled, the `Cache-Control` header is ASCII). -/

/-- ASCII whitespace as recognised by Rust's `str::trim`. -/
def isRustWhitespace (c : Char) : Bool :=
  c = ' ' || c = '\t' || c = '\n' || c = '\r' ||
    c = Char.ofNat 0x0b || c = Char.ofNat 0x0c

/-- Rust `str::trim`: strip whitespace from both ends. -/
def trimChars (s : List Char) : List Char :=
  ((s.dropWhile isRustWhitespace).reverse.dropWhile isRustWhitespace).reverse

/-- Value of a digit string, most significant first. -/
def decimalValue (s : List Char) : Nat :=
  s.foldl (fun acc c => acc * 10 + (c.toNat - 48)) 0

/-- Rust `str::parse::<u64>`: optional leading `+`, then one or more
ASCII digits, failing on overflow past `2^64 - 1`. -/
def parseU64 (s : List Char) : Option Nat :=
  let digits := match s with
    | '+' :: rest => rest
    | _ => s
  if digits ≠ [] ∧ digits.all Char.isDigit then
    if decimalValue digits < 2 ^ 64 then some (decimalValue digits) else none
  else none

/-- Rust `str::strip_prefix`. -/
def stripPrefixChars (pre s : List Char) : Option (List Char) :=
  if pre.isPrefixOf s then some (s.drop pre.length) else none

def maxAgePrefix : List Char := "max-age=".data

/-- `parse_max_age` (firebase.rs lines 214-224): split the header on
commas, find the first directive whose trimmed form starts with
`max-age=`, strip that prefix and parse the rest as `u64`. -/
def parse_max_age (cacheControl : List Char) : Option Nat :=
  ((splitOnChar ',' cacheControl).find?
      (fun d => maxAgePrefix.isPrefixOf (trimChars d))).bind
    (fun d => (stripPrefixChars maxAgePrefix (trimChars d)).bind parseU64)

/-! ## Key-fetch expiry computation (firebase.rs lines 101-108) -/

def KEYS_REFRESH_BUFFER_SECS : Nat := 300

/-- Unsigned 64-bit subtraction `a - b`: `some (a - b)` when it does not
underflow; `none` models the underflow (a panic in debug builds,
wraparound modulo `2^64` in release builds). -/
def u64CheckedSub (a b : Nat) : Option Nat :=
  if b ≤ a then some (a - b) else none

/-- The max-age actually used by `fetch_keys`: the `cache-control`
header value, defaulting to the literal `"max-age=3600"` when the
header is absent (or not valid UTF-8), with `parse_max_age` failures
defaulting to 3600 via `unwrap_or`. -/
def effectiveMaxAge (cacheControl : Option (List Char)) : Nat :=
  (parse_max_age (cacheControl.getD "max-age=3600".data)).getD 3600

/-- The snapshot expiry installed by `fetch_keys`:
`SystemTime::now() + Duration::from_secs(max_age - KEYS_REFRESH_BUFFER_SECS)`
with the `u64` subtraction made explicit; `none` models the underflowing
computation (no well-defined expiry). -/
def fetchExpiry (cacheControl : Option (List Char)) (now : Nat) : Option Nat :=
  (u64CheckedSub (effectiveMaxAge cacheControl) KEYS_REFRESH_BUFFER_SECS).map
    (fun d => now + d)

example : parse_max_age "max-age=600".data = some 600 := by decide
example : parse_max_age "public, max-age=19302, must-revalidate".data
    = some 19302 := by decide
example : parse_max_age "no-store".data = none := by decide
example : fetchExpiry (some "max-age=600".data) 1000 = some 1300 := by decide
example : fetchExpiry none 1000 = some (1000 + 3300) := by decide
example : fetchExpiry (some "max-age=60".data) 1000 = none := by decide

/-! ## base64 (firebase.rs lines 226-241)

`base64_decode` pads the input according to its length mod 4, maps the
base64url characters `-`/`_` to the standard `+`/`/`, and calls
`base64::decode` (the `base64` crate, standard alphabet, strict: `=`
only as final padding, non-zero trailing bits rejected).  Bytes are
`Nat` values below 256. -/

/-- Value of a character in the standard base64 alphabet. -/
def b64StdVal (c : Char) : Option Nat :=
  if 'A' ≤ c ∧ c ≤ 'Z' then some (c.toNat - 65)
  else if 'a' ≤ c ∧ c ≤ 'z' then some (c.toNat - 97 + 26)
  else if '0' ≤ c ∧ c ≤ '9' then some (c.toNat - 48 + 52)
  else if c = '+' then some 62
  else if c = '/' then some 63
  else none

/-- Character of a sextet in the base64url alphabet (`-`/`_` in place of
`+`/`/`). -/
def b64UrlChar (v : Nat) : Char :=
  if v < 26 then Char.ofNat (65 + v)
  else if v < 52 then Char.ofNat (97 + (v - 26))
  else if v < 62 then Char.ofNat (48 + (v - 52))
  else if v = 62 then '-'
  else '_'

/-- Unpadded base64url encoding of a byte sequence (the canonical form
of a JWT segment; used to state what a valid segment is). -/
def b64UrlEncode : List Nat → List Char
  | [] => []
  | [b1] => [b64UrlChar (b1 / 4), b64UrlChar (b1 % 4 * 16)]
  | [b1, b2] => [b64UrlChar (b1 / 4), b64UrlChar (b1 % 4 * 16 + b2 / 16),
      b64UrlChar (b2 % 16 * 4)]
  | b1 :: b2 :: b3 :: rest =>
    b64UrlChar (b1 / 4) :: b64UrlChar (b1 % 4 * 16 + b2 / 16) ::
      b64UrlChar (b2 % 16 * 4 + b3 / 64) :: b64UrlChar (b3 % 64) ::
        b64UrlEncode rest

/-- `base64::decode` with the standard alphabet on a padded input
(length a multiple of four): decode quad by quad; `=` is accepted only
as padding of the final quad and required trailing bits must be zero
(the crate's `decode_allow_trailing_bits` is off). -/
def b64StdDecodePadded : List Char → Option (List Nat)
  | [] => some []
  | c1 :: c2 :: c3 :: c4 :: rest =>
    match b64StdVal c1, b64StdVal c2 with
    | some s1, some s2 =>
      if c3 = '=' then
        if c4 = '=' ∧ rest = [] ∧ s2 % 16 = 0 then
          some [s1 * 4 + s2 / 16]
        else none
      else
        match b64StdVal c3 with
        | some s3 =>
          if c4 = '=' then
            if rest = [] ∧ s3 % 4 = 0 then
              some [s1 * 4 + s2 / 16, s2 % 16 * 16 + s3 / 4]
            else none
          else
            match b64StdVal c4 with
            | some s4 =>
              (b64StdDecodePadded rest).map
                (fun bs => (s1 * 4 + s2 / 16) :: (s2 % 16 * 16 + s3 / 4) ::
                  (s3 % 4 * 64 + s4) :: bs)
            | none => none
        | none => none
    | _, _ => none
  | _ => none

/-- The `replace('-', "+").replace('_', "/")` step as a character map
(no other character is touched; `=` maps to itself). -/
def urlCharToStd (c : Char) : Char :=
  if c = '-' then '+' else if c = '_' then '/' else c

/-- `base64_decode` (firebase.rs lines 227-241): pad according to the
length mod 4 (`1` is rejected as malformed), translate base64url
characters to the standard alphabet, then decode. -/
def base64_decode (input : List Char) : Except String (List Nat) :=
  match input.length % 4 with
  | 0 => decodePadded input
  | 2 => decodePadded (input ++ ['=', '='])
  | 3 => decodePadded (input ++ ['='])
  | _ => .error "Longitud de base64 inválida"
where
  /-- The replace-then-`base64::decode` tail of the function. -/
  decodePadded (s : List Char) : Except String (List Nat) :=
    match b64StdDecodePadded (s.map urlCharToStd) with
    | some bs => .ok bs
    | none => .error "Error al decodificar base64"

example : base64_decode "AA".data = .ok [0] := rfl
example : base64_decode "eyJhIjoxfQ".data =
    .ok ("\x7b\x22a\x22:1\x7d".data.map Char.toNat) := rfl
example : base64_decode "A".data = .error "Longitud de base64 inválida" := rfl

/-! ## The emulator path: `verify_emulator_token` (firebase.rs lines 170-191)

`serde_json::from_slice::<FirebaseClaims>` is an external library call;
it is modelled as an explicit parameter `parseClaims` mapping the
decoded payload bytes to either claims or a serde error message, so
every theorem about this path holds for an arbitrary JSON parser. -/

/-- `verify_emulator_token`: split the token on `.` into exactly three
segments, base64url-decode the middle one, parse it as claims.  No
signature, issuer, audience or expiry check occurs. -/
def verify_emulator_token (parseClaims : List Nat → Except String FirebaseClaims)
    (token : List Char) : Except AppError FirebaseClaims :=
  match splitOnChar '.' token with
  | [_, payloadBase64, _] =>
    match base64_decode payloadBase64 with
    | .error _ =>
      .error (.Authentication "No se pudo decodificar el payload del token")
    | .ok payloadJson =>
      match parseClaims payloadJson with
      | .error e =>
        .error (.Authentication ("Payload del token no es válido: " ++ e))
      | .ok claims => .ok claims
  | _ => .error (.Authentication "Token de formato inválido")

/-! ## The real verification path (firebase.rs lines 118-168)

The cryptographic parts live in the `jsonwebtoken` crate and cannot be
re-executed on a character string; the token therefore enters the real
path pre-parsed: `Except String TokenData` is the outcome of
`decode_header` (its error carries the library message), `TokenData`
the header, payload and an abstract signature (`signedBy` is the `kid`
of the key whose private half produced the signature, `none` when the
signature matches no key).  `jsonwebtoken::decode` is modelled after
the crate's documented behaviour: the header algorithm must be among
`Validation.algorithms`, the signature must verify against the single
key passed in, then expiry (with leeway, when enabled), audience and
issuer are validated.  The library's internal expiry-check switch and
leeway are exposed as parameters `libValidateExp`/`libLeeway` (the
repository leaves them at the crate defaults `true`/60) so that
theorems can quantify over them. -/

/-- `jsonwebtoken::Algorithm`. -/
inductive Alg where
  | HS256 | HS384 | HS512
  | ES256 | ES384
  | RS256 | RS384 | RS512
  | PS256 | PS384 | PS512
  | EdDSA
  deriving Repr, DecidableEq

/-- The decoded JWT header: declared algorithm and optional key id. -/
structure JwtHeader where
  alg : Alg
  kid : Option String
  deriving Repr, DecidableEq

/-- A JWK of the fetched key set: its key id, and the error message of
`DecodingKey::from_jwk` when the key material is unusable (`none` when
the conversion succeeds). -/
structure Jwk where
  kid : String
  fromJwkError : Option String := none
  deriving Repr, DecidableEq

/-- `CachedKeys` (firebase.rs lines 39-42): the key-set snapshot plus
its expiry instant (seconds). -/
structure CachedKeys where
  jwks : List Jwk
  expiry : Nat
  deriving Repr, DecidableEq

/-- `JwkSet::find`: first key whose id matches. -/
def jwkSetFind (jwks : List Jwk) (kid : String) : Option Jwk :=
  jwks.find? (fun k => k.kid = kid)

/-- A token as it looks after cryptographic parsing: header, payload
claims, and the abstract signature. -/
structure TokenData where
  header : JwtHeader
  claims : FirebaseClaims
  signedBy : Option String
  deriving Repr, DecidableEq

/-- The `jsonwebtoken` error kinds the modelled `decode` can produce. -/
inductive JwtError where
  | InvalidAlgorithm
  | InvalidSignature
  | ExpiredSignature
  | InvalidAudience
  | InvalidIssuer
  deriving Repr, DecidableEq

/-- The library's `Display` text for an error kind, abbreviated to the
kind's name (no claim depends on the exact library wording). -/
def jwtErrorMessage : JwtError → String
  | .InvalidAlgorithm => "InvalidAlgorithm"
  | .InvalidSignature => "InvalidSignature"
  | .ExpiredSignature => "ExpiredSignature"
  | .InvalidAudience => "InvalidAudience"
  | .InvalidIssuer => "InvalidIssuer"

/-- `jsonwebtoken::Validation` (the fields this code path exercises). -/
structure Validation where
  algorithms : List Alg
  aud : List String
  iss : List String
  validate_exp : Bool
  leeway : Nat
  deriving Repr, DecidableEq

/-- Model of `jsonwebtoken::decode` with a single decoding key derived
from the JWK with id `keyKid`: algorithm check, signature check, then
claim validation (expiry under leeway when enabled, audience, issuer). -/
def jwtDecode (tok : TokenData) (keyKid : String) (v : Validation)
    (now : Nat) : Except JwtError FirebaseClaims :=
  if ¬ tok.header.alg ∈ v.algorithms then .error .InvalidAlgorithm
  else if ¬ tok.signedBy = some keyKid then .error .InvalidSignature
  else if v.validate_exp ∧ tok.claims.exp < now - v.leeway then
    .error .ExpiredSignature
  else if ¬ tok.claims.aud ∈ v.aud then .error .InvalidAudience
  else if ¬ tok.claims.iss ∈ v.iss then .error .InvalidIssuer
  else .ok tok.claims

/-- `FirebaseAuth` (firebase.rs lines 30-37), restricted to the fields
the verifier reads; the key snapshot behind `Arc<RwLock<CachedKeys>>`
is passed to `verify_token` as explicit state. -/
structure FirebaseAuth where
  project_id : String
  use_emulator : Bool
  deriving Repr, DecidableEq

/-- Result of one run of the real (non-emulator) path.  `keys` is the
snapshot left in the cache; `fetchCount` instruments the run with the
number of key fetches attempted — the field does not exist in the
source, it only records what the control flow did. -/
structure RealOutcome where
  result : Except AppError FirebaseClaims
  keys : CachedKeys
  fetchCount : Nat
  deriving Repr

/-- Result of one `verify_token` call: as `RealOutcome`, plus the
instrumentation flag `usedEmulator` recording which branch of the
facade executed. -/
structure VerifyOutcome where
  result : Except AppError FirebaseClaims
  keys : CachedKeys
  fetchCount : Nat
  usedEmulator : Bool
  deriving Repr

/-- The non-emulator body of `verify_token` (firebase.rs lines 124-168):
decode the header, extract `kid`, refresh the key set iff
`now >= expiry` (the single network fetch is the input `fetchResult`;
its failure aborts via `?` leaving the snapshot unchanged), look up the
JWK, build the decoding key, run the library decode with
`Validation::new(Algorithm::RS256)` plus the configured audience and
issuer, and finally re-check expiry against the wall clock. -/
def realVerifyToken (project_id : String) (keys : CachedKeys)
    (parsed : Except String TokenData) (now : Nat)
    (fetchResult : Except AppError CachedKeys)
    (libValidateExp : Bool) (libLeeway : Nat) : RealOutcome :=
  match parsed with
  | .error e =>
    ⟨.error (.Authentication ("Invalid token header: " ++ e)), keys, 0⟩
  | .ok tok =>
    match tok.header.kid with
    | none =>
      ⟨.error (.Authentication "Token header missing 'kid' claim"), keys, 0⟩
    | some kid =>
      if keys.expiry ≤ now then
        match fetchResult with
        | .error e => ⟨.error e, keys, 1⟩
        | .ok newKeys =>
          realVerifyWithKeys project_id newKeys tok kid now 1 libValidateExp
            libLeeway
      else
        realVerifyWithKeys project_id keys tok kid now 0 libValidateExp
          libLeeway
where
  /-- Lines 141-167: key lookup through final expiry re-check, after the
  refresh-if-stale step settled on the snapshot `keys`. -/
  realVerifyWithKeys (project_id : String) (keys : CachedKeys)
      (tok : TokenData) (kid : String) (now : Nat) (fetches : Nat)
      (libValidateExp : Bool) (libLeeway : Nat) : RealOutcome :=
    match jwkSetFind keys.jwks kid with
    | none =>
      ⟨.error (.Authentication ("No matching key found for kid: " ++ kid)),
        keys, fetches⟩
    | some jwk =>
      match jwk.fromJwkError with
      | some e =>
        ⟨.error (.Authentication ("Failed to create decoding key: " ++ e)),
          keys, fetches⟩
      | none =>
        let validation : Validation :=
          { algorithms := [.RS256]
            aud := [project_id]
            iss := ["https://securetoken.google.com/" ++ project_id]
            validate_exp := libValidateExp
            leeway := libLeeway }
        match jwtDecode tok jwk.kid validation now with
        | .error e =>
          ⟨.error (.Authentication ("Invalid token: " ++ jwtErrorMessage e)),
            keys, fetches⟩
        | .ok claims =>
          if claims.exp < now then
            ⟨.error (.Authentication "Token has expired"), keys, fetches⟩
          else
            ⟨.ok claims, keys, fetches⟩

/-- `FirebaseAuth::verify_token` (firebase.rs lines 118-168): dispatch
on `use_emulator` — the emulator path receives the raw token string and
never touches the key cache; the real path receives the pre-parsed
token.  The `usedEmulator` marker records the branch taken. -/
def verify_token (auth : FirebaseAuth)
    (parseClaims : List Nat → Except String FirebaseClaims)
    (raw : List Char) (parsed : Except String TokenData)
    (keys : CachedKeys) (now : Nat)
    (fetchResult : Except AppError CachedKeys)
    (libValidateExp : Bool) (libLeeway : Nat) : VerifyOutcome :=
  if auth.use_emulator then
    ⟨verify_emulator_token parseClaims raw, keys, 0, true⟩
  else
    let r := realVerifyToken auth.project_id keys parsed now fetchResult
      libValidateExp libLeeway
    ⟨r.result, r.keys, r.fetchCount, false⟩

/-! ## Concrete material used by witnesses and counterexamples -/

/-- Claims of a well-formed token for project `p`. -/
def sampleClaims : FirebaseClaims :=
  { sub := "u1", aud := "p", iss := "https://securetoken.google.com/p",
    iat := 1, exp := 50 }

/-- A token signed by the key with id `k`, declaring RS256. -/
def sampleToken : TokenData :=
  { header := { alg := .RS256, kid := some "k" }, claims := sampleClaims,
    signedBy := some "k" }

/-- A snapshot holding the key `k`, expiring at instant 100. -/
def sampleKeys : CachedKeys := { jwks := [{ kid := "k" }], expiry := 100 }

/-- A snapshot without the key `k`, expiring at instant 100. -/
def otherKeys : CachedKeys := { jwks := [{ kid := "other" }], expiry := 100 }

/-! ## Theorems -/

/-- C3.  The emulator decode path runs iff `use_emulator` is set: the
instrumented `usedEmulator` flag equals the configuration flag on every
input, and when the flag is off the outcome is exactly the real path's
(for every token and every failure the real path can produce), while
when it is on the outcome is exactly the emulator path's. -/
theorem verify_token_emulator_dispatch (auth : FirebaseAuth)
    (parseClaims : List Nat → Except String FirebaseClaims)
    (raw : List Char) (parsed : Except String TokenData) (keys : CachedKeys)
    (now : Nat) (fetchResult : Except AppError CachedKeys)
    (libValidateExp : Bool) (libLeeway : Nat) :
    (verify_token auth parseClaims raw parsed keys now fetchResult
        libValidateExp libLeeway).usedEmulator = auth.use_emulator ∧
    (auth.use_emulator = false →
      (let r := realVerifyToken auth.project_id keys parsed now fetchResult
        libValidateExp libLeeway
      verify_token auth parseClaims raw parsed keys now fetchResult
          libValidateExp libLeeway =
        ⟨r.result, r.keys, r.fetchCount, false⟩)) ∧
    (auth.use_emulator = true →
      verify_token auth parseClaims raw parsed keys now fetchResult
          libValidateExp libLeeway =
        ⟨verify_emulator_token parseClaims raw, keys, 0, true⟩) := by
  unfold verify_token
  rcases hb : auth.use_emulator with _ | _
  · exact ⟨rfl, fun _ => rfl, fun h => by simp at h⟩
  · exact ⟨rfl, fun h => by simp at h, fun _ => rfl⟩

/-- Witness for C3: the dispatch theorem applied with emulator mode off
— the outcome is the real path's even though the real path fails here
(expired snapshot, failing fetch), so no fallback to the emulator
occurs. -/
theorem verify_token_emulator_dispatch_witness :
    (verify_token ⟨"p", false⟩ (fun _ => .error "no parse") []
        (.ok sampleToken) { jwks := [], expiry := 0 } 10
        (.error (.Internal "fetch failed")) true 60).usedEmulator = false ∧
    verify_token ⟨"p", false⟩ (fun _ => .error "no parse") []
        (.ok sampleToken) { jwks := [], expiry := 0 } 10
        (.error (.Internal "fetch failed")) true 60 =
      ⟨.error (.Internal "fetch failed"), { jwks := [], expiry := 0 }, 1,
        false⟩ := by
  refine ⟨(verify_token_emulator_dispatch ⟨"p", false⟩ (fun _ => .error "no parse")
    [] (.ok sampleToken) { jwks := [], expiry := 0 } 10
    (.error (.Internal "fetch failed")) true 60).1, ?_⟩
  have h := (verify_token_emulator_dispatch ⟨"p", false⟩
    (fun _ => .error "no parse") [] (.ok sampleToken)
    { jwks := [], expiry := 0 } 10 (.error (.Internal "fetch failed")) true
    60).2.1 rfl
  exact h.trans rfl

/-- C5.  Snapshot expiry from the `Cache-Control` header: when the
header parses to `max-age=n` (with `n` at least the 300-second buffer,
below which the computation underflows, see the underflow theorem) the
installed expiry is fetch time plus `n` minus the buffer — so
`max-age=600` yields fetch time plus 300 — and an absent or unparsable
`max-age` directive defaults to 3600 seconds. -/
theorem fetch_expiry_cache_control :
    (∀ s n now, parse_max_age s = some n → KEYS_REFRESH_BUFFER_SECS ≤ n →
      fetchExpiry (some s) now = some (now + (n - KEYS_REFRESH_BUFFER_SECS))) ∧
    (∀ now, fetchExpiry (some "max-age=600".data) now = some (now + 300)) ∧
    (∀ now, fetchExpiry none now =
      some (now + (3600 - KEYS_REFRESH_BUFFER_SECS))) ∧
    (∀ s now, parse_max_age s = none →
      fetchExpiry (some s) now =
        some (now + (3600 - KEYS_REFRESH_BUFFER_SECS))) := by
  refine ⟨fun s n now hp hn => ?_, fun now => ?_, fun now => ?_,
    fun s now hp => ?_⟩
  · simp [fetchExpiry, effectiveMaxAge, u64CheckedSub, hp, hn]
  · have h600 : parse_max_age "max-age=600".data = some 600 := by decide
    simp [fetchExpiry, effectiveMaxAge, u64CheckedSub, h600,
      KEYS_REFRESH_BUFFER_SECS]
  · simp [fetchExpiry, effectiveMaxAge, u64CheckedSub,
      KEYS_REFRESH_BUFFER_SECS, show parse_max_age "max-age=3600".data
        = some 3600 by decide]
  · simp [fetchExpiry, effectiveMaxAge, u64CheckedSub, hp,
      KEYS_REFRESH_BUFFER_SECS]

/-- Witness for C5: the freshness theorem at `max-age=900` and fetch
time 1000 (expiry 1600), and the default for the unparsable header
`no-store`. -/
theorem fetch_expiry_cache_control_witness :
    fetchExpiry (some "max-age=900".data) 1000 = some 1600 ∧
    fetchExpiry (some "no-store".data) 1000 = some 4300 := by
  constructor
  · exact fetch_expiry_cache_control.1 "max-age=900".data 900 1000
      (by decide) (by decide)
  · exact fetch_expiry_cache_control.2.2.2 "no-store".data 1000 (by decide)

/-- C9.  The expiry computation's `u64` subtraction
`max_age - KEYS_REFRESH_BUFFER_SECS` underflows whenever the effective
max-age is below the 300-second buffer (`max-age=60` is such a
response): the model yields `none` — the debug-build panic /
release-build wraparound — rather than any fetch error, and the
computation is well-defined exactly under the precondition
`max_age >= 300`. -/
theorem fetch_expiry_underflow :
    (parse_max_age "max-age=60".data = some 60 ∧
      fetchExpiry (some "max-age=60".data) 1000 = none) ∧
    (∀ cacheControl now, effectiveMaxAge cacheControl < KEYS_REFRESH_BUFFER_SECS →
      fetchExpiry cacheControl now = none) ∧
    (∀ cacheControl now, KEYS_REFRESH_BUFFER_SECS ≤ effectiveMaxAge cacheControl →
      fetchExpiry cacheControl now =
        some (now + (effectiveMaxAge cacheControl - KEYS_REFRESH_BUFFER_SECS))) := by
  refine ⟨⟨by decide, by decide⟩, fun cc now h => ?_, fun cc now h => ?_⟩
  · simp [fetchExpiry, u64CheckedSub, Nat.not_le.mpr h]
  · simp [fetchExpiry, u64CheckedSub, h]

/-- Witness for C9: the underflow characterisation applied at
`max-age=60` (underflow) and at an absent header (well-defined). -/
theorem fetch_expiry_underflow_witness :
    fetchExpiry (some "max-age=60".data) 77 = none ∧
    fetchExpiry none 77 = some (77 + 3300) := by
  constructor
  · exact fetch_expiry_underflow.2.1 (some "max-age=60".data) 77 (by decide)
  · exact fetch_expiry_underflow.2.2 none 77 (by decide)

/-- The stage after refresh-if-stale neither touches the cache nor
fetches again: it returns the snapshot it was given and the fetch count
accumulated so far. -/
theorem realVerifyWithKeys_keys_fetches (project_id : String)
    (keys : CachedKeys) (tok : TokenData) (kid : String) (now : Nat)
    (fetches : Nat) (libValidateExp : Bool) (libLeeway : Nat) :
    (realVerifyToken.realVerifyWithKeys project_id keys tok kid now fetches
        libValidateExp libLeeway).keys = keys ∧
    (realVerifyToken.realVerifyWithKeys project_id keys tok kid now fetches
        libValidateExp libLeeway).fetchCount = fetches := by
  unfold realVerifyToken.realVerifyWithKeys
  dsimp only
  repeat' split
  all_goals exact ⟨rfl, rfl⟩

/-- Counterexample to C1 as stated: a fresh snapshot (`now = 0`, expiry
100) lacking the token's kid `k`.  Even though a fetch would succeed
and would return a snapshot containing `k`, the code performs zero
refresh attempts (not one) and fails with the unknown-key error, the
snapshot left untouched: the cache is refreshed only on expiry, not on
unknown key. -/
theorem no_refresh_on_unknown_kid_counterexample :
    (realVerifyToken "p" otherKeys (.ok sampleToken) 0 (.ok sampleKeys) true
        60).fetchCount = 0 ∧
    (realVerifyToken "p" otherKeys (.ok sampleToken) 0 (.ok sampleKeys) true
        60).result =
      .error (.Authentication "No matching key found for kid: k") ∧
    (realVerifyToken "p" otherKeys (.ok sampleToken) 0 (.ok sampleKeys) true
        60).keys = otherKeys :=
  ⟨rfl, rfl, rfl⟩

/-- C1 amended.  The real path attempts a key-set refresh exactly when
the snapshot's expiry has passed (`now >= expiry`) — one attempt then,
zero otherwise — and an unknown kid fails with the unknown-key error
against whichever snapshot the expiry rule selected, without any
refresh triggered by the unknown kid itself. -/
theorem refresh_only_on_expired_snapshot (project_id : String)
    (keys : CachedKeys) (tok : TokenData) (kid : String) (now : Nat)
    (fetchResult : Except AppError CachedKeys) (libValidateExp : Bool)
    (libLeeway : Nat) (hkid : tok.header.kid = some kid) :
    ((realVerifyToken project_id keys (.ok tok) now fetchResult libValidateExp
        libLeeway).fetchCount = if keys.expiry ≤ now then 1 else 0) ∧
    (now < keys.expiry → jwkSetFind keys.jwks kid = none →
      realVerifyToken project_id keys (.ok tok) now fetchResult libValidateExp
          libLeeway =
        ⟨.error (.Authentication ("No matching key found for kid: " ++ kid)),
          keys, 0⟩) ∧
    (∀ newKeys, keys.expiry ≤ now → fetchResult = .ok newKeys →
      jwkSetFind newKeys.jwks kid = none →
      realVerifyToken project_id keys (.ok tok) now fetchResult libValidateExp
          libLeeway =
        ⟨.error (.Authentication ("No matching key found for kid: " ++ kid)),
          newKeys, 1⟩) := by
  refine ⟨?_, fun hfresh hfind => ?_, fun newKeys hstale hfr hfind => ?_⟩
  · unfold realVerifyToken
    dsimp only
    rw [hkid]
    dsimp only
    split
    · rcases fetchResult with e | newKeys
      · rfl
      · exact (realVerifyWithKeys_keys_fetches ..).2
    · exact (realVerifyWithKeys_keys_fetches ..).2
  · unfold realVerifyToken
    dsimp only
    rw [hkid]
    dsimp only
    rw [if_neg (Nat.not_le.mpr hfresh)]
    unfold realVerifyToken.realVerifyWithKeys
    rw [hfind]
  · unfold realVerifyToken
    dsimp only
    rw [hkid]
    dsimp only
    rw [if_pos hstale, hfr]
    dsimp only
    unfold realVerifyToken.realVerifyWithKeys
    rw [hfind]

/-- Witness for C1's amended theorem: fresh snapshot without the kid —
zero fetches and the unknown-key error; and a run with expired
snapshot where the refreshed set still lacks the kid — one fetch, same
error. -/
theorem refresh_only_on_expired_snapshot_witness :
    (realVerifyToken "p" otherKeys (.ok sampleToken) 0 (.error (.Internal "x"))
        true 60).fetchCount = 0 ∧
    realVerifyToken "p" otherKeys (.ok sampleToken) 0 (.error (.Internal "x"))
        true 60 =
      ⟨.error (.Authentication ("No matching key found for kid: " ++ "k")),
        otherKeys, 0⟩ ∧
    realVerifyToken "p" { jwks := [], expiry := 5 } (.ok sampleToken) 10
        (.ok otherKeys) true 60 =
      ⟨.error (.Authentication ("No matching key found for kid: " ++ "k")),
        otherKeys, 1⟩ := by
  refine ⟨?_, ?_, ?_⟩
  · exact (refresh_only_on_expired_snapshot "p" otherKeys sampleToken "k" 0
      (.error (.Internal "x")) true 60 rfl).1.trans (by decide)
  · exact (refresh_only_on_expired_snapshot "p" otherKeys sampleToken "k" 0
      (.error (.Internal "x")) true 60 rfl).2.1 (by decide) (by decide)
  · exact (refresh_only_on_expired_snapshot "p" { jwks := [], expiry := 5 }
      sampleToken "k" 10 (.ok otherKeys) true 60 rfl).2.2 otherKeys
      (by decide) rfl (by decide)

/-- C7.  When the snapshot is stale and the in-flight refresh's fetch
fails, the fetch error itself is returned to that caller (no claims),
and the cache retains the previous snapshot unchanged; a later call
with a successful fetch proceeds past the refresh with the new
snapshot. -/
theorem fetch_failure_keeps_snapshot (project_id : String)
    (keys : CachedKeys) (tok : TokenData) (kid : String) (now : Nat)
    (e : AppError) (libValidateExp : Bool) (libLeeway : Nat)
    (hkid : tok.header.kid = some kid) (hstale : keys.expiry ≤ now) :
    realVerifyToken project_id keys (.ok tok) now (.error e) libValidateExp
        libLeeway = ⟨.error e, keys, 1⟩ ∧
    (∀ newKeys,
      realVerifyToken project_id keys (.ok tok) now (.ok newKeys)
          libValidateExp libLeeway =
        realVerifyToken.realVerifyWithKeys project_id newKeys tok kid now 1
          libValidateExp libLeeway) := by
  constructor
  · unfold realVerifyToken
    dsimp only
    rw [hkid]
    dsimp only
    rw [if_pos hstale]
  · intro newKeys
    unfold realVerifyToken
    dsimp only
    rw [hkid]
    dsimp only
    rw [if_pos hstale]

/-- Witness for C7: stale snapshot (`expiry 5 <= now 10`), failing
fetch — the fetch error comes back and the old snapshot stays. -/
theorem fetch_failure_keeps_snapshot_witness :
    realVerifyToken "p" { jwks := [], expiry := 5 } (.ok sampleToken) 10
        (.error (.Internal "Failed to fetch Firebase public keys: timeout"))
        true 60 =
      ⟨.error (.Internal "Failed to fetch Firebase public keys: timeout"),
        { jwks := [], expiry := 5 }, 1⟩ :=
  (fetch_failure_keeps_snapshot "p" { jwks := [], expiry := 5 } sampleToken
    "k" 10 (.Internal "Failed to fetch Firebase public keys: timeout") true 60
    rfl (by decide)).1

/-- Inversion of the modelled library decode: a success returns exactly
the token's claims and implies every validated property. -/
theorem jwtDecode_ok {tok : TokenData} {keyKid : String} {v : Validation}
    {now : Nat} {c : FirebaseClaims}
    (h : jwtDecode tok keyKid v now = .ok c) :
    c = tok.claims ∧ tok.header.alg ∈ v.algorithms ∧
      tok.signedBy = some keyKid ∧ tok.claims.aud ∈ v.aud ∧
      tok.claims.iss ∈ v.iss := by
  unfold jwtDecode at h
  split_ifs at h with h1 h2 h3 h4 h5
  injection h with h
  exact ⟨h.symm, h1, h2, h4, h5⟩

/-- The modelled library decode succeeds when every check it performs
passes. -/
theorem jwtDecode_passes {tok : TokenData} {keyKid : String} {v : Validation}
    {now : Nat} (halg : tok.header.alg ∈ v.algorithms)
    (hsig : tok.signedBy = some keyKid)
    (hexp : ¬(v.validate_exp ∧ tok.claims.exp < now - v.leeway))
    (haud : tok.claims.aud ∈ v.aud) (hiss : tok.claims.iss ∈ v.iss) :
    jwtDecode tok keyKid v now = .ok tok.claims := by
  unfold jwtDecode
  rw [if_neg (not_not_intro halg), if_neg (not_not_intro hsig), if_neg hexp,
    if_neg (not_not_intro haud), if_neg (not_not_intro hiss)]

/-- After a successful key lookup and key construction, the remaining
verification is the library decode followed by the wall-clock expiry
re-check. -/
theorem realVerifyWithKeys_decode (project_id : String) (keys : CachedKeys)
    (tok : TokenData) (kid : String) (jwk : Jwk) (now : Nat) (fetches : Nat)
    (libValidateExp : Bool) (libLeeway : Nat)
    (hfind : jwkSetFind keys.jwks kid = some jwk)
    (hjwk : jwk.fromJwkError = none) :
    realVerifyToken.realVerifyWithKeys project_id keys tok kid now fetches
        libValidateExp libLeeway =
      match jwtDecode tok jwk.kid
          ⟨[.RS256], [project_id],
            ["https://securetoken.google.com/" ++ project_id],
            libValidateExp, libLeeway⟩ now with
      | .error e =>
        ⟨.error (.Authentication ("Invalid token: " ++ jwtErrorMessage e)),
          keys, fetches⟩
      | .ok claims =>
        if claims.exp < now then
          ⟨.error (.Authentication "Token has expired"), keys, fetches⟩
        else ⟨.ok claims, keys, fetches⟩ := by
  unfold realVerifyToken.realVerifyWithKeys
  rw [hfind]
  dsimp only
  rw [hjwk]

/-- A success of the post-refresh stage carries the token's claims and
implies: the declared algorithm was RS256, the wall clock had not
passed `exp`, and audience and issuer matched the configuration. -/
theorem realVerifyWithKeys_ok {project_id : String} {keys : CachedKeys}
    {tok : TokenData} {kid : String} {now : Nat} {fetches : Nat}
    {libValidateExp : Bool} {libLeeway : Nat} {c : FirebaseClaims}
    (h : (realVerifyToken.realVerifyWithKeys project_id keys tok kid now
        fetches libValidateExp libLeeway).result = .ok c) :
    c = tok.claims ∧ tok.header.alg = .RS256 ∧ now ≤ c.exp ∧
      c.aud = project_id ∧
      c.iss = "https://securetoken.google.com/" ++ project_id := by
  unfold realVerifyToken.realVerifyWithKeys at h
  rcases hfind : jwkSetFind keys.jwks kid with _ | jwk <;> rw [hfind] at h
  · exact Except.noConfusion h
  dsimp only at h
  rcases hjwk : jwk.fromJwkError with _ | e <;> rw [hjwk] at h
  case some => exact Except.noConfusion h
  dsimp only at h
  rcases hdec : jwtDecode tok jwk.kid
      ⟨[.RS256], [project_id],
        ["https://securetoken.google.com/" ++ project_id],
        libValidateExp, libLeeway⟩ now with e | claims <;>
    rw [hdec] at h <;> dsimp only at h
  · exact Except.noConfusion h
  obtain ⟨hc, halg, -, haud, hiss⟩ := jwtDecode_ok hdec
  by_cases hexp : claims.exp < now
  · rw [if_pos hexp] at h
    exact Except.noConfusion h
  · rw [if_neg hexp] at h
    injection h with h
    subst h
    subst hc
    simp only [List.mem_singleton] at halg haud hiss
    exact ⟨rfl, halg, Nat.not_lt.mp hexp, haud, hiss⟩

/-- A success of the whole real path comes from a parsed token whose
claims are the ones returned, with algorithm RS256, unexpired at the
wall clock, and matching audience and issuer. -/
theorem realVerifyToken_ok {project_id : String} {keys : CachedKeys}
    {parsed : Except String TokenData} {now : Nat}
    {fetchResult : Except AppError CachedKeys} {libValidateExp : Bool}
    {libLeeway : Nat} {c : FirebaseClaims}
    (h : (realVerifyToken project_id keys parsed now fetchResult
        libValidateExp libLeeway).result = .ok c) :
    ∃ tok, parsed = .ok tok ∧ c = tok.claims ∧ tok.header.alg = .RS256 ∧
      now ≤ c.exp ∧ c.aud = project_id ∧
      c.iss = "https://securetoken.google.com/" ++ project_id := by
  unfold realVerifyToken at h
  rcases parsed with e | tok
  · exact Except.noConfusion h
  refine ⟨tok, rfl, ?_⟩
  dsimp only at h
  rcases hkid : tok.header.kid with _ | kid <;> rw [hkid] at h
  · exact Except.noConfusion h
  dsimp only at h
  by_cases hstale : keys.expiry ≤ now
  · rw [if_pos hstale] at h
    rcases fetchResult with e | newKeys
    · exact Except.noConfusion h
    · exact realVerifyWithKeys_ok h
  · rw [if_neg hstale] at h
    exact realVerifyWithKeys_ok h

/-- With the kid present and a fresh snapshot, the real path is the
post-refresh stage on the cached snapshot with zero fetches. -/
theorem realVerifyToken_fresh (project_id : String) (keys : CachedKeys)
    (tok : TokenData) (kid : String) (now : Nat)
    (fetchResult : Except AppError CachedKeys) (libValidateExp : Bool)
    (libLeeway : Nat) (hkid : tok.header.kid = some kid)
    (hfresh : now < keys.expiry) :
    realVerifyToken project_id keys (.ok tok) now fetchResult libValidateExp
        libLeeway =
      realVerifyToken.realVerifyWithKeys project_id keys tok kid now 0
        libValidateExp libLeeway := by
  unfold realVerifyToken
  dsimp only
  rw [hkid]
  dsimp only
  rw [if_neg (Nat.not_le.mpr hfresh)]

/-- Counterexample to C2 as stated: at `now = 50` a token with
`exp = 50` — in the past by no second, but not strictly in the future —
passes the whole real path (the re-check is `exp < now`): the returned
claims do not have `exp` strictly in the future at verification time. -/
theorem claims_at_exact_expiry_counterexample :
    (realVerifyToken "p" sampleKeys (.ok sampleToken) 50
        (.error (.Internal "x")) true 60).result = .ok sampleClaims ∧
    ¬50 < sampleClaims.exp :=
  ⟨rfl, by decide⟩

/-- C2 amended.  The real path's wall-clock re-check is `exp < now`:
(i) claims it returns always satisfy `now <= exp` (not in the past,
possibly equal to the current second rather than strictly future);
(ii) with the library's own expiry validation disabled, a token passing
every other check but with `exp` in the past is rejected with the
`Token has expired` error — the re-check is independent of the library;
(iii) whatever the library's expiry-check switch and leeway, `exp` in
the past yields one of the two expiry errors. -/
theorem expiry_recheck_not_strict :
    (∀ (project_id : String) (keys : CachedKeys)
      (parsed : Except String TokenData) (now : Nat)
      (fetchResult : Except AppError CachedKeys) (libValidateExp : Bool)
      (libLeeway : Nat) (c : FirebaseClaims),
      (realVerifyToken project_id keys parsed now fetchResult libValidateExp
        libLeeway).result = .ok c → now ≤ c.exp) ∧
    (∀ (project_id : String) (keys : CachedKeys) (tok : TokenData)
      (kid : String) (jwk : Jwk) (now : Nat)
      (fetchResult : Except AppError CachedKeys) (libLeeway : Nat),
      tok.header.kid = some kid → now < keys.expiry →
      jwkSetFind keys.jwks kid = some jwk → jwk.fromJwkError = none →
      tok.header.alg = .RS256 → tok.signedBy = some jwk.kid →
      tok.claims.aud = project_id →
      tok.claims.iss = "https://securetoken.google.com/" ++ project_id →
      tok.claims.exp < now →
      (realVerifyToken project_id keys (.ok tok) now fetchResult false
        libLeeway).result = .error (.Authentication "Token has expired")) ∧
    (∀ (project_id : String) (keys : CachedKeys) (tok : TokenData)
      (kid : String) (jwk : Jwk) (now : Nat)
      (fetchResult : Except AppError CachedKeys) (libValidateExp : Bool)
      (libLeeway : Nat),
      tok.header.kid = some kid → now < keys.expiry →
      jwkSetFind keys.jwks kid = some jwk → jwk.fromJwkError = none →
      tok.header.alg = .RS256 → tok.signedBy = some jwk.kid →
      tok.claims.aud = project_id →
      tok.claims.iss = "https://securetoken.google.com/" ++ project_id →
      tok.claims.exp < now →
      (realVerifyToken project_id keys (.ok tok) now fetchResult
          libValidateExp libLeeway).result =
        .error (.Authentication "Token has expired") ∨
      (realVerifyToken project_id keys (.ok tok) now fetchResult
          libValidateExp libLeeway).result =
        .error (.Authentication "Invalid token: ExpiredSignature")) := by
  refine ⟨?_, ?_, ?_⟩
  · intro project_id keys parsed now fetchResult lve ll c h
    obtain ⟨tok, -, -, -, hexp, -, -⟩ := realVerifyToken_ok h
    exact hexp
  · intro project_id keys tok kid jwk now fetchResult ll hkid hfresh hfind
      hjwk halg hsig haud hiss hexp
    rw [realVerifyToken_fresh project_id keys tok kid now fetchResult false
      ll hkid hfresh,
      realVerifyWithKeys_decode project_id keys tok kid jwk now 0 false ll
        hfind hjwk,
      jwtDecode_passes (by simp [halg]) hsig (by simp) (by simp [haud])
        (by simp [hiss])]
    dsimp only
    rw [if_pos hexp]
  · intro project_id keys tok kid jwk now fetchResult lve ll hkid hfresh
      hfind hjwk halg hsig haud hiss hexp
    rw [realVerifyToken_fresh project_id keys tok kid now fetchResult lve ll
      hkid hfresh,
      realVerifyWithKeys_decode project_id keys tok kid jwk now 0 lve ll
        hfind hjwk]
    by_cases hlib : (lve : Prop) ∧ tok.claims.exp < now - ll
    · right
      unfold jwtDecode
      rw [if_neg (not_not_intro (by simp [halg])),
        if_neg (not_not_intro hsig), if_pos hlib]
      rfl
    · left
      rw [jwtDecode_passes (by simp [halg]) hsig hlib (by simp [haud])
        (by simp [hiss])]
      dsimp only
      rw [if_pos hexp]

/-- Witness for C2's amended theorem: the success at `now = exp = 50`
yields `now <= exp`; and a token with `exp = 50` seen at `now = 60`
(fresh snapshot, all other checks passing, library expiry check off) is
rejected as expired. -/
theorem expiry_recheck_not_strict_witness :
    50 ≤ sampleClaims.exp ∧
    (realVerifyToken "p" sampleKeys (.ok sampleToken) 60
        (.error (.Internal "x")) false 60).result =
      .error (.Authentication "Token has expired") := by
  constructor
  · exact expiry_recheck_not_strict.1 "p" sampleKeys (.ok sampleToken) 50
      (.error (.Internal "x")) true 60 sampleClaims rfl
  · exact expiry_recheck_not_strict.2.1 "p" sampleKeys sampleToken "k"
      { kid := "k" } 60 (.error (.Internal "x")) 60 rfl (by decide)
      (by decide) rfl rfl rfl rfl rfl (by decide)

/-- C6.  Algorithm confusion is rejected: (i) every success of the real
path comes from a token whose header declared RS256 — the
caller-declared algorithm is never accepted; (ii) a token reaching the
library decode with any other declared algorithm fails with the
signature-class `Invalid token: InvalidAlgorithm` authentication
error. -/
theorem rejects_non_rs256_algorithm :
    (∀ (project_id : String) (keys : CachedKeys)
      (parsed : Except String TokenData) (now : Nat)
      (fetchResult : Except AppError CachedKeys) (libValidateExp : Bool)
      (libLeeway : Nat) (c : FirebaseClaims),
      (realVerifyToken project_id keys parsed now fetchResult libValidateExp
        libLeeway).result = .ok c →
      ∃ tok, parsed = .ok tok ∧ tok.header.alg = .RS256) ∧
    (∀ (project_id : String) (keys : CachedKeys) (tok : TokenData)
      (kid : String) (jwk : Jwk) (now : Nat)
      (fetchResult : Except AppError CachedKeys) (libValidateExp : Bool)
      (libLeeway : Nat),
      tok.header.kid = some kid → now < keys.expiry →
      jwkSetFind keys.jwks kid = some jwk → jwk.fromJwkError = none →
      tok.header.alg ≠ .RS256 →
      (realVerifyToken project_id keys (.ok tok) now fetchResult
          libValidateExp libLeeway).result =
        .error (.Authentication "Invalid token: InvalidAlgorithm")) := by
  constructor
  · intro project_id keys parsed now fetchResult lve ll c h
    obtain ⟨tok, hparsed, -, halg, -, -, -⟩ := realVerifyToken_ok h
    exact ⟨tok, hparsed, halg⟩
  · intro project_id keys tok kid jwk now fetchResult lve ll hkid hfresh
      hfind hjwk halg
    rw [realVerifyToken_fresh project_id keys tok kid now fetchResult lve ll
      hkid hfresh,
      realVerifyWithKeys_decode project_id keys tok kid jwk now 0 lve ll
        hfind hjwk]
    unfold jwtDecode
    rw [if_pos (by simp [halg])]
    rfl

/-- A token declaring HS256, otherwise identical to the valid sample
token. -/
def hs256Token : TokenData :=
  { header := { alg := .HS256, kid := some "k" }, claims := sampleClaims,
    signedBy := some "k" }

/-- Witness for C6: the HS256 token is rejected with the
algorithm-confusion error, and the successful RS256 run instantiates
the only-RS256-succeeds direction. -/
theorem rejects_non_rs256_algorithm_witness :
    (realVerifyToken "p" sampleKeys (.ok hs256Token) 0
        (.error (.Internal "x")) true 60).result =
      .error (.Authentication "Invalid token: InvalidAlgorithm") ∧
    (∃ tok, (.ok sampleToken : Except String TokenData) = .ok tok ∧
      tok.header.alg = .RS256) := by
  constructor
  · exact rejects_non_rs256_algorithm.2 "p" sampleKeys hs256Token "k"
      { kid := "k" } 0 (.error (.Internal "x")) true 60 rfl (by decide)
      (by decide) rfl (by decide)
  · exact rejects_non_rs256_algorithm.1 "p" sampleKeys (.ok sampleToken) 50
      (.error (.Internal "x")) true 60 sampleClaims rfl

/-- A well-formed emulator token (three dot-free segments whose payload
decodes and parses) yields exactly the parsed claims. -/
theorem verify_emulator_token_ok
    (parseClaims : List Nat → Except String FirebaseClaims)
    (hd payload sig : List Char) (bs : List Nat) (c : FirebaseClaims)
    (hh : '.' ∉ hd) (hp : '.' ∉ payload) (hs : '.' ∉ sig)
    (hdec : base64_decode payload = .ok bs)
    (hpc : parseClaims bs = .ok c) :
    verify_emulator_token parseClaims (hd ++ '.' :: (payload ++ '.' :: sig)) =
      .ok c := by
  unfold verify_emulator_token
  rw [splitOnChar_append '.' hd _ hh, splitOnChar_append '.' payload _ hp,
    splitOnChar_no_sep '.' sig hs]
  dsimp only
  rw [hdec]
  dsimp only
  rw [hpc]

/-- C4.  The emulator path returns the claims parsed from the decoded
payload segment, and its outcome is identical for any two tokens that
differ only in their signature segment: no signature check occurs. -/
theorem emulator_ignores_signature
    (parseClaims : List Nat → Except String FirebaseClaims)
    (hd payload sig1 sig2 : List Char) (bs : List Nat) (c : FirebaseClaims)
    (hh : '.' ∉ hd) (hp : '.' ∉ payload) (hs1 : '.' ∉ sig1)
    (hs2 : '.' ∉ sig2) (hdec : base64_decode payload = .ok bs)
    (hpc : parseClaims bs = .ok c) :
    verify_emulator_token parseClaims
        (hd ++ '.' :: (payload ++ '.' :: sig1)) = .ok c ∧
    verify_emulator_token parseClaims
        (hd ++ '.' :: (payload ++ '.' :: sig1)) =
      verify_emulator_token parseClaims
        (hd ++ '.' :: (payload ++ '.' :: sig2)) := by
  have h1 := verify_emulator_token_ok parseClaims hd payload sig1 bs c hh hp
    hs1 hdec hpc
  have h2 := verify_emulator_token_ok parseClaims hd payload sig2 bs c hh hp
    hs2 hdec hpc
  exact ⟨h1, h1.trans h2.symm⟩

/-- Witness for C4: payload `AA` (decoding to the byte 0) with
signatures `sig` and the empty segment — both runs return the parser's
claims. -/
theorem emulator_ignores_signature_witness :
    verify_emulator_token (fun _ => .ok sampleClaims)
        ("h".data ++ '.' :: ("AA".data ++ '.' :: "sig".data)) =
      .ok sampleClaims ∧
    verify_emulator_token (fun _ => .ok sampleClaims)
        ("h".data ++ '.' :: ("AA".data ++ '.' :: "sig".data)) =
      verify_emulator_token (fun _ => .ok sampleClaims)
        ("h".data ++ '.' :: ("AA".data ++ '.' :: [])) :=
  emulator_ignores_signature (fun _ => .ok sampleClaims) "h".data "AA".data
    "sig".data [] [0] sampleClaims (by decide) (by decide) (by decide)
    (by decide) rfl rfl

/-- C10.  The emulator path validates nothing about the claims: every
outcome is either a success or one of its three structural errors
(wrong segment count, undecodable payload base64, unparsable payload) —
no expiry, audience or issuer error exists — and a well-formed token is
accepted even with `exp` in the past and a foreign audience. -/
theorem emulator_no_claim_validation
    (parseClaims : List Nat → Except String FirebaseClaims) :
    (∀ token, (∃ c, verify_emulator_token parseClaims token = .ok c) ∨
      verify_emulator_token parseClaims token =
        .error (.Authentication "Token de formato inválido") ∨
      verify_emulator_token parseClaims token =
        .error (.Authentication "No se pudo decodificar el payload del token") ∨
      ∃ e, verify_emulator_token parseClaims token =
        .error (.Authentication ("Payload del token no es válido: " ++ e))) ∧
    (∀ (hd payload sig : List Char) (bs : List Nat) (c : FirebaseClaims)
      (now : Nat) (projectId : String),
      '.' ∉ hd → '.' ∉ payload → '.' ∉ sig →
      base64_decode payload = .ok bs → parseClaims bs = .ok c →
      c.exp < now → c.aud ≠ projectId →
      verify_emulator_token parseClaims
        (hd ++ '.' :: (payload ++ '.' :: sig)) = .ok c) := by
  constructor
  · intro token
    unfold verify_emulator_token
    rcases hs : splitOnChar '.' token with _ | ⟨a, _ | ⟨b, _ | ⟨d, _ | ⟨e, rest⟩⟩⟩⟩
    · exact .inr (.inl rfl)
    · exact .inr (.inl rfl)
    · exact .inr (.inl rfl)
    · dsimp only
      rcases base64_decode b with msg | bs
      · exact .inr (.inr (.inl rfl))
      · dsimp only
        rcases parseClaims bs with msg | c
        · exact .inr (.inr (.inr ⟨msg, rfl⟩))
        · exact .inl ⟨c, rfl⟩
    · exact .inr (.inl rfl)
  · intro hd payload sig bs c now projectId hh hp hs hdec hpc _ _
    exact verify_emulator_token_ok parseClaims hd payload sig bs c hh hp hs
      hdec hpc

/-- Witness for C10: the sample claims (exp 50) are accepted at
`now = 100` under the foreign project id `q`; a one-segment token hits
the segment-count error. -/
theorem emulator_no_claim_validation_witness :
    verify_emulator_token (fun _ => .ok sampleClaims)
        ("h".data ++ '.' :: ("AA".data ++ '.' :: "s".data)) =
      .ok sampleClaims ∧
    ((∃ c, verify_emulator_token (fun _ => .ok sampleClaims) "x".data =
        .ok c) ∨
      verify_emulator_token (fun _ => .ok sampleClaims) "x".data =
        .error (.Authentication "Token de formato inválido") ∨
      verify_emulator_token (fun _ => .ok sampleClaims) "x".data =
        .error (.Authentication "No se pudo decodificar el payload del token") ∨
      ∃ e, verify_emulator_token (fun _ => .ok sampleClaims) "x".data =
        .error (.Authentication ("Payload del token no es válido: " ++ e))) := by
  constructor
  · exact (emulator_no_claim_validation (fun _ => .ok sampleClaims)).2
      "h".data "AA".data "s".data [0] sampleClaims 100 "q" (by decide)
      (by decide) (by decide) rfl rfl (by decide) (by decide)
  · exact (emulator_no_claim_validation (fun _ => .ok sampleClaims)).1 "x".data

/-! ## Roundtrip of the base64url decoder (C8) -/

/-- The padding `base64_decode` appends to an encoding of `n` bytes
(encoded length mod 4 is 0, 2 or 3 as `n` mod 3 is 0, 1 or 2). -/
def padTail (n : Nat) : List Char :=
  match n % 3 with
  | 0 => []
  | 1 => ['=', '=']
  | _ => ['=']

theorem roundVal_fin :
    ∀ v : Fin 64, b64StdVal (urlCharToStd (b64UrlChar v.val)) = some v.val := by
  decide

/-- Translating a base64url alphabet character to the standard alphabet
and reading its value recovers the sextet. -/
theorem roundVal {v : Nat} (h : v < 64) :
    b64StdVal (urlCharToStd (b64UrlChar v)) = some v :=
  roundVal_fin ⟨v, h⟩

theorem notPad_fin : ∀ v : Fin 64, urlCharToStd (b64UrlChar v.val) ≠ '=' := by
  decide

/-- No translated alphabet character is the padding character. -/
theorem notPad {v : Nat} (h : v < 64) : urlCharToStd (b64UrlChar v) ≠ '=' :=
  notPad_fin ⟨v, h⟩

/-- Length of the unpadded encoding, mod 4, as a function of the byte
count mod 3. -/
theorem b64UrlEncode_length_mod (bs : List Nat) :
    (b64UrlEncode bs).length % 4 =
      (match bs.length % 3 with | 0 => 0 | 1 => 2 | _ => 3) := by
  induction bs using b64UrlEncode.induct with
  | case1 => rfl
  | case2 b1 => rfl
  | case3 b1 b2 => rfl
  | case4 b1 b2 b3 rest ih =>
    have hlen : (b1 :: b2 :: b3 :: rest).length = rest.length + 3 := by
      simp only [List.length_cons]
    have hmod : (rest.length + 3) % 3 = rest.length % 3 := by omega
    rw [hlen, hmod]
    have hlen4 : (b64UrlEncode (b1 :: b2 :: b3 :: rest)).length =
        (b64UrlEncode rest).length + 4 := by
      simp only [b64UrlEncode, List.length_cons]
    rw [hlen4]
    have : ((b64UrlEncode rest).length + 4) % 4 =
        (b64UrlEncode rest).length % 4 := by omega
    rw [this, ih]

/-- Decoding the translated encoding plus its padding recovers the
bytes. -/
theorem decodePadded_encode (bs : List Nat) (hb : ∀ b ∈ bs, b < 256) :
    b64StdDecodePadded
        ((b64UrlEncode bs).map urlCharToStd ++ padTail bs.length) =
      some bs := by
  induction bs using b64UrlEncode.induct with
  | case1 => rfl
  | case2 b1 =>
    have h1 : b1 < 256 := hb b1 (by simp)
    have hs1 : b1 / 4 < 64 := by omega
    have hs2 : b1 % 4 * 16 < 64 := by omega
    show b64StdDecodePadded
        (urlCharToStd (b64UrlChar (b1 / 4)) ::
          urlCharToStd (b64UrlChar (b1 % 4 * 16)) :: ['=', '=']) = some [b1]
    unfold b64StdDecodePadded
    rw [roundVal hs1, roundVal hs2]
    dsimp only
    rw [if_pos rfl, if_pos ⟨rfl, rfl, by omega⟩]
    have : b1 / 4 * 4 + b1 % 4 * 16 / 16 = b1 := by omega
    rw [this]
  | case3 b1 b2 =>
    have h1 : b1 < 256 := hb b1 (by simp)
    have h2 : b2 < 256 := hb b2 (by simp)
    have hs1 : b1 / 4 < 64 := by omega
    have hs2 : b1 % 4 * 16 + b2 / 16 < 64 := by omega
    have hs3 : b2 % 16 * 4 < 64 := by omega
    show b64StdDecodePadded
        (urlCharToStd (b64UrlChar (b1 / 4)) ::
          urlCharToStd (b64UrlChar (b1 % 4 * 16 + b2 / 16)) ::
            urlCharToStd (b64UrlChar (b2 % 16 * 4)) :: ['=']) = some [b1, b2]
    unfold b64StdDecodePadded
    rw [roundVal hs1, roundVal hs2]
    dsimp only
    rw [if_neg (notPad hs3), roundVal hs3]
    dsimp only
    rw [if_pos rfl, if_pos ⟨rfl, by omega⟩]
    have e1 : b1 / 4 * 4 + (b1 % 4 * 16 + b2 / 16) / 16 = b1 := by omega
    have e2 : (b1 % 4 * 16 + b2 / 16) % 16 * 16 + b2 % 16 * 4 / 4 = b2 := by
      omega
    rw [e1, e2]
  | case4 b1 b2 b3 rest ih =>
    have h1 : b1 < 256 := hb b1 (by simp)
    have h2 : b2 < 256 := hb b2 (by simp)
    have h3 : b3 < 256 := hb b3 (by simp)
    have hrest : ∀ b ∈ rest, b < 256 := fun b hbm => hb b (by simp [hbm])
    have hs1 : b1 / 4 < 64 := by omega
    have hs2 : b1 % 4 * 16 + b2 / 16 < 64 := by omega
    have hs3 : b2 % 16 * 4 + b3 / 64 < 64 := by omega
    have hs4 : b3 % 64 < 64 := by omega
    have hpad : padTail (b1 :: b2 :: b3 :: rest).length =
        padTail rest.length := by
      have : (b1 :: b2 :: b3 :: rest).length % 3 = rest.length % 3 := by
        simp only [List.length_cons]
        omega
      unfold padTail
      rw [this]
    rw [hpad]
    show b64StdDecodePadded
        (urlCharToStd (b64UrlChar (b1 / 4)) ::
          urlCharToStd (b64UrlChar (b1 % 4 * 16 + b2 / 16)) ::
            urlCharToStd (b64UrlChar (b2 % 16 * 4 + b3 / 64)) ::
              urlCharToStd (b64UrlChar (b3 % 64)) ::
                ((b64UrlEncode rest).map urlCharToStd ++
                  padTail rest.length)) = some (b1 :: b2 :: b3 :: rest)
    unfold b64StdDecodePadded
    rw [roundVal hs1, roundVal hs2]
    dsimp only
    rw [if_neg (notPad hs3), roundVal hs3]
    dsimp only
    rw [if_neg (notPad hs4), roundVal hs4]
    dsimp only
    rw [ih hrest]
    have e1 : b1 / 4 * 4 + (b1 % 4 * 16 + b2 / 16) / 16 = b1 := by omega
    have e2 : (b1 % 4 * 16 + b2 / 16) % 16 * 16 + (b2 % 16 * 4 + b3 / 64) / 4
        = b2 := by omega
    have e3 : (b2 % 16 * 4 + b3 / 64) % 4 * 64 + b3 % 64 = b3 := by omega
    simp only [Option.map_some']
    rw [e1, e2, e3]

/-- `base64_decode` unfolded to its padding dispatch. -/
theorem base64_decode_eq_pad (input : List Char) :
    base64_decode input =
      match input.length % 4 with
      | 0 => base64_decode.decodePadded input
      | 2 => base64_decode.decodePadded (input ++ ['=', '='])
      | 3 => base64_decode.decodePadded (input ++ ['='])
      | _ => .error "Longitud de base64 inválida" := rfl

/-- C8.  The emulator's base64url decoder: every canonical base64url
encoding decodes back to its bytes — encodings of length mod 4 equal
to 2 and to 3 arise (from byte counts 1 and 2 mod 3) and succeed after
the documented `==` / `=` padding append — while every input of length
mod 4 equal to 1 is rejected as malformed before any decoding. -/
theorem base64_padding_roundtrip :
    (∀ bs : List Nat, (∀ b ∈ bs, b < 256) →
      base64_decode (b64UrlEncode bs) = .ok bs) ∧
    (∀ s : List Char, s.length % 4 = 1 →
      base64_decode s = .error "Longitud de base64 inválida") ∧
    (∀ bs : List Nat, bs.length % 3 = 1 →
      (b64UrlEncode bs).length % 4 = 2) ∧
    (∀ bs : List Nat, bs.length % 3 = 2 →
      (b64UrlEncode bs).length % 4 = 3) := by
  have hpt0 : ∀ n : Nat, n % 3 = 0 → padTail n = [] := by
    intro n h
    unfold padTail
    rw [h]
  have hpt1 : ∀ n : Nat, n % 3 = 1 → padTail n = ['=', '='] := by
    intro n h
    unfold padTail
    rw [h]
  have hpt2 : ∀ n : Nat, n % 3 = 2 → padTail n = ['='] := by
    intro n h
    unfold padTail
    rw [h]
  have hmain : ∀ bs : List Nat, (∀ b ∈ bs, b < 256) →
      base64_decode (b64UrlEncode bs) = .ok bs := by
    intro bs hb
    rw [base64_decode_eq_pad, b64UrlEncode_length_mod]
    have h3 : bs.length % 3 = 0 ∨ bs.length % 3 = 1 ∨ bs.length % 3 = 2 := by
      omega
    have hdec := decodePadded_encode bs hb
    rcases h3 with h | h | h <;> rw [h]
    · rw [hpt0 bs.length h, List.append_nil] at hdec
      show base64_decode.decodePadded (b64UrlEncode bs) = .ok bs
      unfold base64_decode.decodePadded
      rw [hdec]
    · rw [hpt1 bs.length h] at hdec
      show base64_decode.decodePadded (b64UrlEncode bs ++ ['=', '=']) = .ok bs
      unfold base64_decode.decodePadded
      rw [List.map_append,
        show List.map urlCharToStd ['=', '='] = ['=', '='] from rfl, hdec]
    · rw [hpt2 bs.length h] at hdec
      show base64_decode.decodePadded (b64UrlEncode bs ++ ['=']) = .ok bs
      unfold base64_decode.decodePadded
      rw [List.map_append,
        show List.map urlCharToStd ['='] = ['='] from rfl, hdec]
  refine ⟨hmain, fun s hlen => ?_, fun bs hlen => ?_, fun bs hlen => ?_⟩
  · rw [base64_decode_eq_pad, hlen]
  · rw [b64UrlEncode_length_mod, hlen]
  · rw [b64UrlEncode_length_mod, hlen]

/-- Witness for C8: the single byte 255 encodes to two characters
(length mod 4 = 2) and decodes back; the bytes `[255, 16]` encode to
three characters (mod 4 = 3) and decode back; the one-character input
`A` is rejected. -/
theorem base64_padding_roundtrip_witness :
    base64_decode (b64UrlEncode [255]) = .ok [255] ∧
    (b64UrlEncode [255]).length % 4 = 2 ∧
    base64_decode (b64UrlEncode [255, 16]) = .ok [255, 16] ∧
    (b64UrlEncode [255, 16]).length % 4 = 3 ∧
    base64_decode ['A'] = .error "Longitud de base64 inválida" := by
  refine ⟨?_, ?_, ?_, ?_, ?_⟩
  · exact base64_padding_roundtrip.1 [255] (by decide)
  · exact base64_padding_roundtrip.2.2.1 [255] (by decide)
  · exact base64_padding_roundtrip.1 [255, 16] (by decide)
  · exact base64_padding_roundtrip.2.2.2 [255, 16] (by decide)
  · exact base64_padding_roundtrip.2.1 ['A'] (by decide)

end Firebase
